import Mathlib

/-!
# Verification of the Toda-App authentication and ownership layer

Shallow embedding of the backend's core modules:
* `src/backend/src/storage/database_store.py` (`DatabaseStore`) — the
  database is modelled as a `List Todo`; SQL `first()` becomes `List.find?`,
  in-place mutation of the fetched row becomes replacement of the first
  matching element, deletion becomes removal of the first matching element.
* `src/backend/src/models/todo.py` (`Todo.__init__` validation on create).
* `src/backend/src/auth/jwt.py` (`create_access_token` / `decode_access_token`);
  the PyJWT library is modelled abstractly: a token value is either blank,
  structurally malformed, or a well-formed signed claim set carried between
  surrounding-whitespace strings, and `jwt.decode` rejects a wrong key,
  rejects `exp <= now` (PyJWT's expiry test), and otherwise yields the claims.
* `src/backend/src/auth/password.py`; the bcrypt library is modelled
  abstractly: a digest string is either empty, a well-formed bcrypt digest
  recording the hashed password and its salt, or malformed, and `checkpw`
  succeeds exactly on a well-formed digest of an equal password while it
  raises on malformed input.
* `src/backend/src/auth/service.py` (`register_user` / `authenticate_user`);
  the user table is a `List User`.
* `src/backend/src/api/schemas.py` (`TodoUpdate` request validation) composed
  with `DatabaseStore.update` as the backend `PUT /api/todos/{id}` pipeline.

Python exceptions (`ValueError`, `KeyError`) are modelled with `Except String`;
functions documented to "never throw" are total Lean functions.
-/

/-- Python's `str.strip()`: drop leading and trailing whitespace. Implemented
by structural recursion over the character list so that concrete instances
evaluate inside the kernel. -/
def pyStrip (s : String) : String :=
  String.mk (((s.data.dropWhile Char.isWhitespace).reverse.dropWhile
    Char.isWhitespace).reverse)

/-- Python's `str.lower()` (over the ASCII range the tests exercise). -/
def pyLower (s : String) : String :=
  String.mk (s.data.map Char.toLower)

/-- Python's `str.split(sep)` for a one-character separator, on char lists:
`"a@b" → ["a","b"]`, `"@" → ["",""]`, `"" → [""]`. -/
def pySplitAux (c : Char) : List Char → List (List Char)
  | [] => [[]]
  | a :: rest =>
    if a = c then [] :: pySplitAux c rest
    else
      match pySplitAux c rest with
      | [] => [[a]]
      | h :: t => (a :: h) :: t

/-- Python's `str.split(sep)` for a one-character separator. -/
def pySplit (c : Char) (s : String) : List String :=
  (pySplitAux c s.data).map String.mk

/-- Python's `c in s` membership test for a single character. -/
def pyContains (s : String) (c : Char) : Bool :=
  s.data.contains c

/-- `src/models/todo.py` `TodoStatus.PENDING.value`. -/
def pendingStatus : String := "pending"

/-- `src/models/todo.py` `TodoStatus.COMPLETE.value`. -/
def completeStatus : String := "complete"

/-- One row of the `todos` table (`src/backend/src/models/todo.py`). -/
structure Todo where
  id : Nat
  title : String
  description : String
  status : String
  created_at : Nat
  user_id : Nat
  deriving Repr, DecidableEq

/-- `Todo.__init__` validation (`src/backend/src/models/todo.py`): a title is
rejected when empty or whitespace-only, stored trimmed, rejected when the
trimmed form exceeds 500 characters; a description is rejected beyond 2000
characters. -/
def mkTodo (title description status : String) (user_id : Nat)
    (id created_at : Nat) : Except String Todo :=
  if pyStrip title = "" then
    .error "Title cannot be empty or whitespace-only"
  else if (pyStrip title).length > 500 then
    .error "Title cannot exceed 500 characters"
  else if description.length > 2000 then
    .error "Description cannot exceed 2000 characters"
  else
    .ok { id := id, title := pyStrip title, description := description,
          status := status, created_at := created_at, user_id := user_id }

/-- The ownership filter a `DatabaseStore` query applies when a `user_id`
argument is present: with `none` no owner condition is added at all
(`database_store.py`, the `if user_id is not None` guards). -/
def ownerMatches (user_id : Option Nat) (t : Todo) : Bool :=
  match user_id with
  | none => true
  | some u => t.user_id == u

/-- The row predicate of `DatabaseStore.get_by_id`'s SELECT statement. -/
def rowMatches (todo_id : Nat) (user_id : Option Nat) (t : Todo) : Bool :=
  t.id == todo_id && ownerMatches user_id t

/-- `DatabaseStore.get_by_id` (`database_store.py` lines 56-73): first row
whose id matches, additionally filtered by owner when `user_id` is given. -/
def get_by_id (db : List Todo) (todo_id : Nat) (user_id : Option Nat) :
    Option Todo :=
  db.find? (rowMatches todo_id user_id)

/-- `DatabaseStore.get_all` (`database_store.py` lines 75-91): every row, or
every row of the given owner. -/
def get_all (db : List Todo) (user_id : Option Nat) : List Todo :=
  match user_id with
  | none => db
  | some u => db.filter (fun t => t.user_id == u)

/-- Replace the first element satisfying `p` — the list-model counterpart of
mutating the single fetched ORM object and committing. -/
def replaceFirst (p : Todo → Bool) (f : Todo → Todo) : List Todo → List Todo
  | [] => []
  | t :: ts => if p t then f t :: ts else t :: replaceFirst p f ts

/-- Remove the first element satisfying `p` — the counterpart of
`self.db.delete(todo)` on the fetched object. -/
def removeFirst (p : Todo → Bool) : List Todo → List Todo
  | [] => []
  | t :: ts => if p t then ts else t :: removeFirst p ts

/-- The message of the `KeyError` raised by `DatabaseStore.update` and
`DatabaseStore.mark_complete`. -/
def notFoundMsg (todo_id : Nat) : String :=
  "Todo #" ++ toString todo_id ++ " not found"

/-- `DatabaseStore.update` (`database_store.py` lines 93-127): fetch with the
ownership filter, raise `KeyError` when absent, otherwise overwrite exactly
the fields whose argument is present (no validation here) and save. Returns
the refreshed row together with the new table state. -/
def DatabaseStore.update (db : List Todo) (todo_id : Nat)
    (title description : Option String) (user_id : Option Nat) :
    Except String (Todo × List Todo) :=
  match get_by_id db todo_id user_id with
  | none => .error (notFoundMsg todo_id)
  | some t =>
    let t' : Todo :=
      { t with title := title.getD t.title,
               description := description.getD t.description }
    .ok (t', replaceFirst (rowMatches todo_id user_id) (fun _ => t') db)

/-- `DatabaseStore.delete` (`database_store.py` lines 129-150): fetch with the
ownership filter; `False` (state unchanged) when absent, otherwise delete the
row and return `True`. -/
def DatabaseStore.delete (db : List Todo) (todo_id : Nat)
    (user_id : Option Nat) : Bool × List Todo :=
  match get_by_id db todo_id user_id with
  | none => (false, db)
  | some _ => (true, removeFirst (rowMatches todo_id user_id) db)

/-- `DatabaseStore.mark_complete` (`database_store.py` lines 152-180): fetch
with the ownership filter, raise `KeyError` when absent, otherwise set
`status` to `"complete"` and save. -/
def DatabaseStore.mark_complete (db : List Todo) (todo_id : Nat)
    (user_id : Option Nat) : Except String (Todo × List Todo) :=
  match get_by_id db todo_id user_id with
  | none => .error (notFoundMsg todo_id)
  | some t =>
    let t' : Todo := { t with status := completeStatus }
    .ok (t', replaceFirst (rowMatches todo_id user_id) (fun _ => t') db)

/-- `DatabaseStore.add` (`database_store.py` lines 23-54): requires a
`user_id`, then constructs the `Todo` (running `Todo.__init__` validation)
with status PENDING and appends it to the table. -/
def DatabaseStore.add (db : List Todo) (title description : String)
    (user_id : Option Nat) (id created_at : Nat) :
    Except String (Todo × List Todo) :=
  match user_id with
  | none => .error "user_id is required"
  | some uid =>
    match mkTodo title description pendingStatus uid id created_at with
    | .error e => .error e
    | .ok t => .ok (t, db ++ [t])

/-- The `todos` table invariant: ids are primary keys, so pairwise distinct. -/
def uniqueIds (db : List Todo) : Prop :=
  db.Pairwise (fun s t => s.id ≠ t.id)

-- ### Basic lemmas about the list model

theorem find?_eq_some_of_unique {db : List Todo} {x : Todo} {p : Todo → Bool}
    (hx : x ∈ db) (hpx : p x = true)
    (huniq : ∀ t ∈ db, p t = true → t = x) :
    db.find? p = some x := by
  induction db with
  | nil => cases hx
  | cons h tl ih =>
    by_cases hph : p h = true
    · have : h = x := huniq h (List.mem_cons_self h tl) hph
      subst this
      simp [List.find?, hph]
    · have hph' : p h = false := by
        cases hp : p h
        · rfl
        · exact absurd hp hph
      have hx' : x ∈ tl := by
        rcases List.mem_cons.mp hx with h1 | h1
        · exact absurd (h1 ▸ hpx) (by simp [hph'])
        · exact h1
      simp only [List.find?, hph']
      exact ih hx' (fun t ht hp => huniq t (List.mem_cons_of_mem h ht) hp)

theorem rowMatches_imp_id {todo_id : Nat} {uid : Option Nat} {t : Todo}
    (h : rowMatches todo_id uid t = true) : t.id = todo_id := by
  have := (Bool.and_eq_true _ _).mp h
  exact eq_of_beq this.1

/-- With pairwise-distinct ids, any element of the table sharing an id with a
member `x` is `x` itself. -/
theorem eq_of_same_id {db : List Todo} {x t : Todo}
    (hdb : uniqueIds db) (hx : x ∈ db) (ht : t ∈ db) (hid : t.id = x.id) :
    t = x := by
  by_contra hne
  have hsymm : Symmetric (fun s t : Todo => s.id ≠ t.id) :=
    fun a b h he => h he.symm
  exact (hdb.forall hsymm ht hx hne) hid

-- ### Token service (`src/backend/src/auth/jwt.py`, PyJWT modelled abstractly)

/-- `JWT_SECRET`'s default value (`jwt.py` line 14). -/
def JWT_SECRET : String := "your-secret-key-change-this-in-production"

/-- `JWT_EXPIRATION_HOURS` default (`jwt.py` line 16). -/
def JWT_EXPIRATION_HOURS : Int := 24

/-- A JWT claim set: each of the four claims the code touches may be absent
from the payload dictionary. Times are unix seconds. -/
structure JwtClaims where
  user_id : Option Int
  email : Option String
  iat : Option Int
  exp : Option Int
  deriving Repr, DecidableEq

/-- The universe of strings handed to `decode_access_token`, modelled by what
PyJWT's parser would make of them: blank (empty after `strip()`), structurally
malformed, or a well-formed token — a claim set signed with some key, possibly
surrounded by whitespace (`lead`/`trail`), which `strip()` discards. -/
inductive TokenInput where
  | blank (s : String)
  | malformed (s : String)
  | wellFormed (claims : JwtClaims) (key : String) (lead trail : String)
  deriving Repr, DecidableEq

/-- `create_access_token` (`jwt.py` lines 19-51): rejects a non-positive
`user_id` (`not user_id or user_id <= 0`) and an email empty after `strip()`;
otherwise signs `{user_id, email.strip(), iat := now, exp := now + TTL}` with
`JWT_SECRET`. -/
def create_access_token (user_id : Int) (email : String) (now : Int) :
    Except String TokenInput :=
  if user_id ≤ 0 then
    .error "user_id must be a positive integer"
  else if pyStrip email = "" then
    .error "email cannot be empty"
  else
    .ok (.wellFormed
      { user_id := some user_id, email := some (pyStrip email),
        iat := some now, exp := some (now + JWT_EXPIRATION_HOURS * 3600) }
      JWT_SECRET "" "")

/-- The field check `decode_access_token` performs after PyJWT succeeds:
`"user_id" not in payload or "email" not in payload` returns `None`. -/
def requiredFields (c : JwtClaims) : Option JwtClaims :=
  if c.user_id.isSome && c.email.isSome then some c else none

/-- `decode_access_token` (`jwt.py` lines 54-92): `None` for blank input;
`jwt.decode` on the stripped token raises (caught, `None`) for malformed
input, a signature made with a key other than `JWT_SECRET`, or an expired
token — PyJWT's expiry test rejects exactly when `exp ≤ now`; a payload
without an `exp` claim is not expiry-checked. Then the required-field check.
Total: every failure is the `none` outcome, never an exception. -/
def decode_access_token (t : TokenInput) (now : Int) : Option JwtClaims :=
  match t with
  | .blank _ => none
  | .malformed _ => none
  | .wellFormed c key _ _ =>
    if key ≠ JWT_SECRET then none
    else match c.exp with
      | some e => if e ≤ now then none else requiredFields c
      | none => requiredFields c

-- ### Credential hasher (`src/backend/src/auth/password.py`, bcrypt modelled)

/-- The strings handed around as bcrypt digests: empty, a well-formed digest
recording the password it hashed and the salt drawn for that call, or any
other (malformed) string. `bcrypt.checkpw` raises on a malformed digest and
otherwise compares against the recorded password. -/
inductive BcryptStr where
  | emptyStr
  | digest (password : String) (salt : Nat)
  | malformed (s : String)
  deriving Repr, DecidableEq

/-- `bcrypt.checkpw(password, hashed)` modelled: `Except` for the `ValueError`
a malformed or empty digest raises, otherwise equality with the hashed
password (bcrypt re-derives the hash under the recorded salt). -/
def bcrypt_checkpw (password : String) (hashed : BcryptStr) :
    Except Unit Bool :=
  match hashed with
  | .emptyStr => .error ()
  | .malformed _ => .error ()
  | .digest q _ => .ok (q == password)

/-- `hash_password` (`password.py` lines 6-27): `ValueError` on an empty
password, otherwise a digest under a fresh salt (the salt is explicit input
here, standing for `bcrypt.gensalt(rounds=12)`). -/
def hash_password (password : String) (salt : Nat) :
    Except String BcryptStr :=
  if password = "" then .error "Password cannot be empty"
  else .ok (.digest password salt)

/-- `verify_password` (`password.py` lines 30-48): `False` when password or
digest is empty; any `bcrypt` exception is caught and becomes `False`. Total,
so it never throws. -/
def verify_password (password : String) (hashed : BcryptStr) : Bool :=
  if password = "" then false
  else if hashed = .emptyStr then false
  else match bcrypt_checkpw password hashed with
    | .error _ => false
    | .ok b => b

-- ### Account registry (`src/backend/src/auth/service.py`)

/-- One row of the `users` table (`src/backend/src/models/user.py`). -/
structure User where
  id : Nat
  email : String
  password_hash : BcryptStr
  deriving Repr, DecidableEq

/-- Email shape test of `register_user`, applied to the normalized email:
contains `"@"`, splits on `"@"` into exactly two non-empty parts, and the
domain part contains `"."`. -/
def emailShapeOk (e : String) : Bool :=
  pyContains e '@' &&
    (match pySplit '@' e with
     | [localPart, domain] =>
       !(localPart = "") && !(domain = "") && pyContains domain '.'
     | _ => false)

/-- `register_user` (`service.py` lines 10-68), in the code's own order:
empty-after-trim email → `ValueError`; normalize (trim, lowercase); shape
checks → `ValueError "Invalid email format"`; existing row with the
normalized email → `ValueError "Email already registered"`; empty or short
password → `ValueError`; then hash and append the new row. `salt` stands for
the salt bcrypt draws; `next_id` for the id the database assigns. -/
def register_user (db : List User) (email password : String)
    (salt next_id : Nat) : Except String (User × List User) :=
  if pyStrip email = "" then .error "Email cannot be empty"
  else
    let e := pyLower (pyStrip email)
    if !emailShapeOk e then .error "Invalid email format"
    else if (db.find? (fun u => u.email == e)).isSome then
      .error "Email already registered"
    else if password = "" then .error "Password cannot be empty"
    else if password.length < 8 then
      .error "Password must be at least 8 characters"
    else
      match hash_password password salt with
      | .error err => .error err
      | .ok h =>
        let u : User := { id := next_id, email := e, password_hash := h }
        .ok (u, db ++ [u])

/-- `authenticate_user` (`service.py` lines 71-99): `None` (never an
exception) when email or password is empty, when no row has the normalized
email, or when password verification fails; the row otherwise. -/
def authenticate_user (db : List User) (email password : String) :
    Option User :=
  if email = "" || password = "" then none
  else
    let e := pyLower (pyStrip email)
    match db.find? (fun u => u.email == e) with
    | none => none
    | some u => if verify_password password u.password_hash then some u else none

-- ### Backend update pipeline (`schemas.py` `TodoUpdate` + `routes/todos.py`)

/-- `TodoUpdate` request validation (`schemas.py` lines 44-47): a given title
must have raw length between 1 and 500, a given description raw length at
most 2000. Pydantic does not strip before measuring. -/
def todoUpdateValid (title description : Option String) : Bool :=
  (match title with
   | none => true
   | some t => 1 ≤ t.length && t.length ≤ 500) &&
  (match description with
   | none => true
   | some d => d.length ≤ 2000)

/-- `PUT /api/todos/{todo_id}` (`routes/todos.py` lines 118-160): request
validation by `TodoUpdate`, then `DatabaseStore.update` directly — the
route does not pass through `TodoManager.update_todo`, so no trim /
whitespace-only / trimmed-length validation runs on the way to the store. -/
def backend_update (db : List Todo) (todo_id : Nat)
    (title description : Option String) (uid : Nat) :
    Except String (Todo × List Todo) :=
  if !todoUpdateValid title description then
    .error "request validation error"
  else DatabaseStore.update db todo_id title description (some uid)

/-- `TodoValidator.validate_title` (`src/src/skills/validator.py` lines
11-31), the validation `create` enforces and `TodoManager.update_todo`
would apply: reject empty/whitespace-only, trim, reject trimmed length
over 500. -/
def validate_title (title : String) : Except String String :=
  if pyStrip title = "" then .error "Title cannot be empty"
  else if (pyStrip title).length > 500 then
    .error "Title cannot exceed 500 characters"
  else .ok (pyStrip title)

-- ### Store lemmas shared by the ownership / frame / idempotence claims

theorem rowMatches_self (x : Todo) : rowMatches x.id (some x.user_id) x = true := by
  simp [rowMatches, ownerMatches]

theorem get_by_id_owned {db : List Todo} {x : Todo}
    (hdb : uniqueIds db) (hx : x ∈ db) :
    get_by_id db x.id (some x.user_id) = some x := by
  apply find?_eq_some_of_unique hx (rowMatches_self x)
  intro t ht hp
  exact eq_of_same_id hdb hx ht (rowMatches_imp_id hp)

theorem get_by_id_other_owner {db : List Todo} {x : Todo} {b : Nat}
    (hdb : uniqueIds db) (hx : x ∈ db) (hb : b ≠ x.user_id) :
    get_by_id db x.id (some b) = none := by
  rw [get_by_id, List.find?_eq_none]
  intro t ht hp
  have hid := rowMatches_imp_id hp
  have htx : t = x := eq_of_same_id hdb hx ht hid
  subst htx
  have := ((Bool.and_eq_true _ _).mp hp).2
  simp only [ownerMatches] at this
  exact hb (eq_of_beq this).symm

theorem get_by_id_absent {db : List Todo} {i : Nat} {uid : Option Nat}
    (h : ∀ t ∈ db, t.id ≠ i) : get_by_id db i uid = none := by
  rw [get_by_id, List.find?_eq_none]
  intro t ht hp
  exact h t ht (rowMatches_imp_id hp)

/-- Rows of a table purged of an id never carry that id. -/
theorem purged_id {db : List Todo} {i : Nat} :
    ∀ t ∈ db.filter (fun t => !(t.id == i)), t.id ≠ i := by
  intro t ht
  have := (List.mem_filter.mp ht).2
  simpa using this

theorem map_pointwise_id {db : List Todo} {g : Todo → Todo}
    (h : ∀ t ∈ db, g t = t) : db.map g = db := by
  induction db with
  | nil => rfl
  | cons a tl ih =>
    simp only [List.map, h a (List.mem_cons_self a tl)]
    rw [ih (fun t ht => h t (List.mem_cons_of_mem a ht))]

theorem replaceFirst_eq_map {db : List Todo} {x : Todo} {p : Todo → Bool}
    {f : Todo → Todo}
    (hdb : uniqueIds db) (hx : x ∈ db) (hpx : p x = true)
    (hp_id : ∀ t, p t = true → t.id = x.id) :
    replaceFirst p f db = db.map (fun t => if t.id == x.id then f t else t) := by
  induction db with
  | nil => cases hx
  | cons h tl ih =>
    have hpc := List.pairwise_cons.mp hdb
    by_cases hph : p h = true
    · have hxh : x = h := by
        rcases List.mem_cons.mp hx with h1 | h1
        · exact h1
        · exact absurd (hp_id h hph) (hpc.1 x h1)
      subst hxh
      have htl : tl.map (fun t => if t.id == x.id then f t else t) = tl := by
        apply map_pointwise_id
        intro t ht
        have : t.id ≠ x.id := fun he => (hpc.1 t ht) he.symm
        simp [this]
      simp only [replaceFirst, hph, List.map, htl]
      simp
    · have hph' : p h = false := by
        cases hp : p h
        · rfl
        · exact absurd hp hph
      have hx' : x ∈ tl := by
        rcases List.mem_cons.mp hx with h1 | h1
        · exact absurd (h1 ▸ hpx) (by simp [hph'])
        · exact h1
      have hhid : (h.id == x.id) = false := by
        have : h.id ≠ x.id := hpc.1 x hx'
        simp [this]
      simp only [replaceFirst, hph', List.map, hhid]
      rw [ih hpc.2 hx']
      simp

/-- Master description of a successful owned `mark_complete`: the returned
row is the target with only `status` rewritten, and the table is the
pointwise image fixing every other id. -/
theorem mark_complete_owned {db : List Todo} {x : Todo}
    (hdb : uniqueIds db) (hx : x ∈ db) :
    DatabaseStore.mark_complete db x.id (some x.user_id) =
      .ok ({ x with status := completeStatus },
        db.map (fun t => if t.id == x.id then { x with status := completeStatus }
                         else t)) := by
  rw [DatabaseStore.mark_complete, get_by_id_owned hdb hx]
  have := replaceFirst_eq_map (f := fun _ => { x with status := completeStatus })
    hdb hx (rowMatches_self x) (fun t hp => rowMatches_imp_id hp)
  simp only [this]

/-- A row already COMPLETE is returned and stored unchanged. -/
theorem mark_complete_already {db : List Todo} {x : Todo}
    (hdb : uniqueIds db) (hx : x ∈ db) (hs : x.status = completeStatus) :
    DatabaseStore.mark_complete db x.id (some x.user_id) = .ok (x, db) := by
  rw [mark_complete_owned hdb hx]
  have hxeq : ({ x with status := completeStatus } : Todo) = x := by
    cases x
    simp_all
  rw [hxeq]
  have : db.map (fun t => if t.id == x.id then x else t) = db := by
    apply map_pointwise_id
    intro t ht
    by_cases h : t.id = x.id
    · have : t = x := eq_of_same_id hdb hx ht h
      simp [this]
    · simp [h]
  rw [this]

/-- Ids (hence the primary-key invariant) survive `mark_complete`'s map. -/
theorem uniqueIds_map_status {db : List Todo} {x : Todo}
    (hdb : uniqueIds db) :
    uniqueIds (db.map (fun t => if t.id == x.id then { x with status := completeStatus }
                                else t)) := by
  rw [uniqueIds, List.pairwise_map]
  apply hdb.imp
  intro a b hab
  by_cases ha : a.id = x.id <;> by_cases hb : b.id = x.id <;>
    simp [ha, hb] at * <;> omega

theorem get_by_id_none_owned {db : List Todo} {x : Todo}
    (hdb : uniqueIds db) (hx : x ∈ db) :
    get_by_id db x.id none = some x := by
  apply find?_eq_some_of_unique hx (by simp [rowMatches, ownerMatches])
  intro t ht hp
  exact eq_of_same_id hdb hx ht (rowMatches_imp_id hp)

-- ### Concrete rows used by the witnesses

def sampleTodo : Todo :=
  { id := 1, title := "Buy milk", description := "", status := "pending",
    created_at := 0, user_id := 1 }

def sampleDb : List Todo := [sampleTodo]

def doneTodo : Todo :=
  { id := 2, title := "Done task", description := "", status := "complete",
    created_at := 0, user_id := 1 }

-- ### C1

/-- C1: ownership isolation with masking. For a row `x` of owner `a` in a
table with primary-key-unique ids, a different owner `b`'s `get_by_id`
returns `None`, `update` and `mark_complete` raise the `KeyError` carrying
the not-found message, and `delete` returns `False` with the table
untouched — each outcome literally the one produced on any table holding no
row with that id — while `a`'s own `get_by_id`, `update`, `mark_complete`
and `delete` all succeed. -/
theorem ownership_isolation_masking (db : List Todo) (x : Todo) (a b : Nat)
    (ti de : Option String)
    (hdb : uniqueIds db) (hx : x ∈ db) (ha : x.user_id = a) (hab : b ≠ a) :
    (get_by_id db x.id (some b) = none ∧
     DatabaseStore.update db x.id ti de (some b) = .error (notFoundMsg x.id) ∧
     DatabaseStore.mark_complete db x.id (some b) = .error (notFoundMsg x.id) ∧
     DatabaseStore.delete db x.id (some b) = (false, db)) ∧
    (∀ db₀ : List Todo, (∀ t ∈ db₀, t.id ≠ x.id) →
      get_by_id db₀ x.id (some b) = none ∧
      DatabaseStore.update db₀ x.id ti de (some b) = .error (notFoundMsg x.id) ∧
      DatabaseStore.mark_complete db₀ x.id (some b) = .error (notFoundMsg x.id) ∧
      DatabaseStore.delete db₀ x.id (some b) = (false, db₀)) ∧
    (get_by_id db x.id (some a) = some x ∧
     (∃ r rest, DatabaseStore.update db x.id ti de (some a) = .ok (r, rest)) ∧
     (∃ r rest, DatabaseStore.mark_complete db x.id (some a) = .ok (r, rest)) ∧
     (DatabaseStore.delete db x.id (some a)).1 = true) := by
  subst ha
  have hB : get_by_id db x.id (some b) = none :=
    get_by_id_other_owner hdb hx hab
  have hA : get_by_id db x.id (some x.user_id) = some x :=
    get_by_id_owned hdb hx
  refine ⟨⟨hB, ?_, ?_, ?_⟩, ?_, hA, ?_, ?_, ?_⟩
  · rw [DatabaseStore.update, hB]
  · rw [DatabaseStore.mark_complete, hB]
  · rw [DatabaseStore.delete, hB]
  · intro db₀ h0
    have h0' : get_by_id db₀ x.id (some b) = none := get_by_id_absent h0
    exact ⟨h0', by rw [DatabaseStore.update, h0'],
      by rw [DatabaseStore.mark_complete, h0'],
      by rw [DatabaseStore.delete, h0']⟩
  · exact ⟨_, _, by rw [DatabaseStore.update, hA]⟩
  · exact ⟨_, _, by rw [DatabaseStore.mark_complete, hA]⟩
  · rw [DatabaseStore.delete, hA]

/-- Witness for C1 at a concrete one-row table: owner 1's row, caller 2. -/
theorem ownership_isolation_masking_witness :
    get_by_id sampleDb sampleTodo.id (some 2) = none ∧
    DatabaseStore.delete sampleDb sampleTodo.id (some 2) = (false, sampleDb) ∧
    get_by_id sampleDb sampleTodo.id (some 1) = some sampleTodo := by
  have h := ownership_isolation_masking sampleDb sampleTodo 1 2 none none
    (by simp [uniqueIds, sampleDb]) (by simp [sampleDb]) rfl (by decide)
  exact ⟨h.1.1, h.1.2.2.2, h.2.2.1⟩

-- ### C7

/-- C7: `mark_complete` is idempotent for the owner. On an already-COMPLETE
row it succeeds and returns row and table unchanged; from any status, two
calls in a row both succeed and both report status COMPLETE, the second
changing nothing. -/
theorem mark_complete_idempotent (db : List Todo) (x : Todo)
    (hdb : uniqueIds db) (hx : x ∈ db) :
    (x.status = completeStatus →
      DatabaseStore.mark_complete db x.id (some x.user_id) = .ok (x, db)) ∧
    (∃ r db',
      DatabaseStore.mark_complete db x.id (some x.user_id) = .ok (r, db') ∧
      r.status = completeStatus ∧
      DatabaseStore.mark_complete db' x.id (some x.user_id) = .ok (r, db')) := by
  constructor
  · intro hs
    exact mark_complete_already hdb hx hs
  · refine ⟨{ x with status := completeStatus }, _,
      mark_complete_owned hdb hx, rfl, ?_⟩
    have hmem : ({ x with status := completeStatus } : Todo) ∈
        db.map (fun t => if t.id == x.id then { x with status := completeStatus }
                         else t) :=
      List.mem_map.mpr ⟨x, hx, by simp⟩
    exact mark_complete_already (uniqueIds_map_status hdb) hmem rfl

/-- Witness for C7 on a one-row table whose row is already COMPLETE. -/
theorem mark_complete_idempotent_witness :
    DatabaseStore.mark_complete [doneTodo] doneTodo.id (some doneTodo.user_id) =
      .ok (doneTodo, [doneTodo]) :=
  (mark_complete_idempotent [doneTodo] doneTodo
    (by simp [uniqueIds]) (by simp)).1 rfl

-- ### C9

/-- C9 (implicit): the owner filter is optional at the store boundary. With
`user_id = None` no ownership filtering happens: `get_all` returns every
owner's rows verbatim, `get_by_id` finds any owner's row by id, and
`update`, `delete`, `mark_complete` succeed on any owner's row. -/
theorem store_owner_filter_optional (db : List Todo) (x : Todo)
    (ti de : Option String) (hdb : uniqueIds db) (hx : x ∈ db) :
    get_all db none = db ∧
    get_by_id db x.id none = some x ∧
    (∃ r rest, DatabaseStore.update db x.id ti de none = .ok (r, rest)) ∧
    (DatabaseStore.delete db x.id none).1 = true ∧
    (∃ r rest, DatabaseStore.mark_complete db x.id none = .ok (r, rest)) := by
  have hA : get_by_id db x.id none = some x := get_by_id_none_owned hdb hx
  refine ⟨rfl, hA, ⟨_, _, by rw [DatabaseStore.update, hA]⟩, ?_,
    ⟨_, _, by rw [DatabaseStore.mark_complete, hA]⟩⟩
  rw [DatabaseStore.delete, hA]

/-- Witness for C9: owner 1's row is reachable with no owner filter. -/
theorem store_owner_filter_optional_witness :
    get_all sampleDb none = sampleDb ∧
    get_by_id sampleDb sampleTodo.id none = some sampleTodo := by
  have h := store_owner_filter_optional sampleDb sampleTodo none none
    (by simp [uniqueIds, sampleDb]) (by simp [sampleDb])
  exact ⟨h.1, h.2.1⟩

-- ### C10

/-- C10 (implicit): frame of a successful owned `mark_complete`. Only the
`status` field of the target row changes — id, title, description, owner and
creation timestamp are preserved — and the new table is the old one with
exactly the rows of other ids left in place. -/
theorem mark_complete_frame (db : List Todo) (x : Todo)
    (hdb : uniqueIds db) (hx : x ∈ db) :
    ∃ r db',
      DatabaseStore.mark_complete db x.id (some x.user_id) = .ok (r, db') ∧
      r.id = x.id ∧ r.title = x.title ∧ r.description = x.description ∧
      r.user_id = x.user_id ∧ r.created_at = x.created_at ∧
      r.status = completeStatus ∧
      db' = db.map (fun t => if t.id == x.id then r else t) ∧
      (∀ t ∈ db, t.id ≠ x.id → t ∈ db') := by
  refine ⟨{ x with status := completeStatus }, _,
    mark_complete_owned hdb hx, rfl, rfl, rfl, rfl, rfl, rfl, rfl, ?_⟩
  intro t ht hne
  exact List.mem_map.mpr ⟨t, ht, by simp [hne]⟩

/-- Witness for C10 on the one-row sample table. -/
theorem mark_complete_frame_witness :
    ∃ r db',
      DatabaseStore.mark_complete sampleDb sampleTodo.id
        (some sampleTodo.user_id) = .ok (r, db') ∧
      r.id = sampleTodo.id ∧ r.title = sampleTodo.title ∧
      r.description = sampleTodo.description ∧
      r.user_id = sampleTodo.user_id ∧ r.created_at = sampleTodo.created_at ∧
      r.status = completeStatus ∧
      db' = sampleDb.map (fun t => if t.id == sampleTodo.id then r else t) ∧
      (∀ t ∈ sampleDb, t.id ≠ sampleTodo.id → t ∈ db') :=
  mark_complete_frame sampleDb sampleTodo
    (by simp [uniqueIds, sampleDb]) (by simp [sampleDb])

-- ### C2

/-- C2 counterexample: the claim says the issued token embeds the trim-AND-
lowercase normalization of the email. The code (`jwt.py` line 44) embeds
`email.strip()` only: issuing for `"A@B.co"` embeds `"A@B.co"`, which
`verify` returns verbatim, and that differs from the lowercased form
`"a@b.co"`. -/
theorem token_roundtrip_lowercase_counterexample :
    ∃ tok, create_access_token 1 "A@B.co" 0 = .ok tok ∧
      decode_access_token tok 5 =
        some { user_id := some 1, email := some "A@B.co",
               iat := some 0, exp := some 86400 } ∧
      ("A@B.co" : String) ≠ pyLower (pyStrip "A@B.co") := by
  refine ⟨.wellFormed
    { user_id := some 1, email := some "A@B.co",
      iat := some 0, exp := some 86400 } JWT_SECRET "" "", ?_, ?_, by decide⟩
  · rfl
  · rfl

/-- C2 amended: token round-trip with trimming only. For every owner id > 0
and email non-empty after trimming, `create_access_token` succeeds and embeds
the owner id and the TRIMMED (not lowercased) email with `iat = now` and
`exp = now + 24h`, and `decode_access_token` on that token at any instant
strictly before expiry returns exactly those claims. -/
theorem token_roundtrip_trimmed (uid : Int) (email : String) (t0 now : Int)
    (huid : 0 < uid) (hemail : pyStrip email ≠ "")
    (hnow : now < t0 + JWT_EXPIRATION_HOURS * 3600) :
    ∃ tok, create_access_token uid email t0 = .ok tok ∧
      decode_access_token tok now =
        some { user_id := some uid, email := some (pyStrip email),
               iat := some t0, exp := some (t0 + JWT_EXPIRATION_HOURS * 3600) } := by
  refine ⟨.wellFormed
    { user_id := some uid, email := some (pyStrip email),
      iat := some t0, exp := some (t0 + JWT_EXPIRATION_HOURS * 3600) }
    JWT_SECRET "" "", ?_, ?_⟩
  · rw [create_access_token, if_neg (by omega), if_neg hemail]
  · rw [decode_access_token]
    simp only [ne_eq, not_true_eq_false, if_false, if_neg (by omega : ¬ t0 + JWT_EXPIRATION_HOURS * 3600 ≤ now)]
    rfl

/-- Witness for the amended C2 at owner 7 and email `"  a@b.co  "`. -/
theorem token_roundtrip_trimmed_witness :
    ∃ tok, create_access_token 7 "  a@b.co  " 100 = .ok tok ∧
      decode_access_token tok 86499 =
        some { user_id := some 7, email := some (pyStrip "  a@b.co  "),
               iat := some 100, exp := some (100 + JWT_EXPIRATION_HOURS * 3600) } :=
  token_roundtrip_trimmed 7 "  a@b.co  " 100 86499 (by decide) (by decide)
    (by decide)

-- ### C5

/-- C5: `decode_access_token` is total (every failure is the `None` outcome,
never an exception) and rejects: blank input, structurally malformed tokens,
a signature under a key other than the server secret, tokens whose expiry
instant is at or before `now`, and payloads missing the `user_id` or the
`email` claim; surrounding whitespace is stripped and irrelevant; on success
the embedded claims come back verbatim. -/
theorem decode_access_token_totality (s : String) (c : JwtClaims)
    (key lead trail : String) (now e : Int) :
    decode_access_token (.blank s) now = none ∧
    decode_access_token (.malformed s) now = none ∧
    (key ≠ JWT_SECRET →
      decode_access_token (.wellFormed c key lead trail) now = none) ∧
    (c.exp = some e → e ≤ now →
      decode_access_token (.wellFormed c JWT_SECRET lead trail) now = none) ∧
    (c.user_id = none →
      decode_access_token (.wellFormed c JWT_SECRET lead trail) now = none) ∧
    (c.email = none →
      decode_access_token (.wellFormed c JWT_SECRET lead trail) now = none) ∧
    (decode_access_token (.wellFormed c key lead trail) now =
      decode_access_token (.wellFormed c key "" "") now) ∧
    (c.user_id.isSome → c.email.isSome → (∀ x, c.exp = some x → now < x) →
      decode_access_token (.wellFormed c JWT_SECRET lead trail) now = some c) := by
  refine ⟨rfl, rfl, ?_, ?_, ?_, ?_, ?_, ?_⟩
  · intro hk
    simp [decode_access_token, hk]
  · intro he hle
    simp [decode_access_token, he, hle]
  · intro hu
    cases hexp : c.exp with
    | none => simp [decode_access_token, hexp, requiredFields, hu]
    | some x =>
      by_cases hle : x ≤ now <;>
        simp [decode_access_token, hexp, requiredFields, hu, hle]
  · intro hm
    cases hexp : c.exp with
    | none => simp [decode_access_token, hexp, requiredFields, hm]
    | some x =>
      by_cases hle : x ≤ now <;>
        simp [decode_access_token, hexp, requiredFields, hm, hle]
  · rfl
  · intro hu hm hfresh
    cases hexp : c.exp with
    | none => simp [decode_access_token, hexp, requiredFields, hu, hm]
    | some x =>
      have hlt := hfresh x hexp
      have hgt : ¬ x ≤ now := by omega
      simp [decode_access_token, hexp, requiredFields, hu, hm, hgt]

/-- Witness for C5: concrete rejected and accepted tokens. -/
theorem decode_access_token_totality_witness :
    decode_access_token (.blank "  ") 0 = none ∧
    decode_access_token (.malformed "not.a.valid.jwt") 0 = none ∧
    decode_access_token
      (.wellFormed { user_id := some 1, email := some "t@e.co",
                     iat := some 0, exp := some 10 } "wrong_secret" "" "") 0 =
      none ∧
    decode_access_token
      (.wellFormed { user_id := some 1, email := some "t@e.co",
                     iat := some 0, exp := some 10 } JWT_SECRET " " " ") 3 =
      some { user_id := some 1, email := some "t@e.co",
             iat := some 0, exp := some 10 } := by
  have h := decode_access_token_totality "  " 
    { user_id := some 1, email := some "t@e.co", iat := some 0, exp := some 10 }
    "wrong_secret" " " " " 0 10
  have h2 := decode_access_token_totality "not.a.valid.jwt"
    { user_id := some 1, email := some "t@e.co", iat := some 0, exp := some 10 }
    JWT_SECRET " " " " 3 10
  exact ⟨h.1, h2.2.1, h.2.2.1 (by decide),
    h2.2.2.2.2.2.2.2 (by decide) (by decide)
      (fun x hx => by simp at hx; omega)⟩

-- ### C6

/-- C6: the credential hasher contract. `hash_password` rejects the empty
password with `ValueError`; for every non-empty password the freshly produced
digest verifies; `verify_password` is total (Bool-valued, every bcrypt
exception caught) and returns `false` on an empty password, an empty digest
or a malformed digest; and it returns `true` only on a digest produced from
an equal password string. -/
theorem password_hash_verify_contract (p s : String) (salt : Nat)
    (d : BcryptStr) :
    hash_password "" salt = .error "Password cannot be empty" ∧
    (p ≠ "" → ∀ d', hash_password p salt = .ok d' →
      verify_password p d' = true) ∧
    verify_password "" d = false ∧
    verify_password p .emptyStr = false ∧
    verify_password p (.malformed s) = false ∧
    (verify_password p d = true → ∃ salt', d = .digest p salt') := by
  refine ⟨rfl, ?_, ?_, ?_, ?_, ?_⟩
  · intro hp d' hd'
    rw [hash_password, if_neg hp] at hd'
    cases hd'
    simp [verify_password, bcrypt_checkpw, hp]
  · simp [verify_password]
  · simp [verify_password, bcrypt_checkpw]
  · simp [verify_password, bcrypt_checkpw]
  · intro hv
    cases d with
    | emptyStr => simp [verify_password] at hv
    | malformed s' => simp [verify_password, bcrypt_checkpw] at hv
    | digest q salt' =>
      by_cases hp : p = ""
      · simp [verify_password, hp] at hv
      · simp only [verify_password, hp, if_false, bcrypt_checkpw] at hv
        exact ⟨salt', by simp_all [eq_of_beq hv]⟩

/-- Witness for C6 with the password `"password123"` and salt 0. -/
theorem password_hash_verify_contract_witness :
    hash_password "" 0 = .error "Password cannot be empty" ∧
    verify_password "password123" (.digest "password123" 0) = true := by
  have h := password_hash_verify_contract "password123" "$2b$bad" 0
    (.digest "password123" 0)
  exact ⟨h.1, h.2.1 (by decide) _ rfl⟩

-- ### C3

/-- C3: the registration error taxonomy, in the code's own evaluation order.
An email empty after trimming, of bad shape (not exactly one `"@"` with
non-empty parts, or a domain without `"."`), then a duplicate normalized
email (`Conflict`), then an empty or short password each produce their
`ValueError`; the conflict message differs from every validation message;
and on success the new account is appended to the table. -/
theorem register_error_taxonomy (db : List User) (email password : String)
    (salt nid : Nat) :
    (pyStrip email = "" →
      register_user db email password salt nid = .error "Email cannot be empty") ∧
    (pyStrip email ≠ "" → emailShapeOk (pyLower (pyStrip email)) = false →
      register_user db email password salt nid = .error "Invalid email format") ∧
    (pyStrip email ≠ "" → emailShapeOk (pyLower (pyStrip email)) = true →
      (db.find? (fun u => u.email == pyLower (pyStrip email))).isSome = true →
      register_user db email password salt nid =
        .error "Email already registered") ∧
    (pyStrip email ≠ "" → emailShapeOk (pyLower (pyStrip email)) = true →
      (db.find? (fun u => u.email == pyLower (pyStrip email))).isSome = false →
      password = "" →
      register_user db email password salt nid =
        .error "Password cannot be empty") ∧
    (pyStrip email ≠ "" → emailShapeOk (pyLower (pyStrip email)) = true →
      (db.find? (fun u => u.email == pyLower (pyStrip email))).isSome = false →
      password ≠ "" → password.length < 8 →
      register_user db email password salt nid =
        .error "Password must be at least 8 characters") ∧
    (∀ m ∈ ["Email cannot be empty", "Invalid email format",
            "Password cannot be empty",
            "Password must be at least 8 characters"],
      ("Email already registered" : String) ≠ m) ∧
    (pyStrip email ≠ "" → emailShapeOk (pyLower (pyStrip email)) = true →
      (db.find? (fun u => u.email == pyLower (pyStrip email))).isSome = false →
      password ≠ "" → ¬ password.length < 8 →
      register_user db email password salt nid =
        .ok ({ id := nid, email := pyLower (pyStrip email),
               password_hash := .digest password salt },
             db ++ [{ id := nid, email := pyLower (pyStrip email),
                      password_hash := .digest password salt }])) := by
  refine ⟨?_, ?_, ?_, ?_, ?_, by decide, ?_⟩
  · intro h
    rw [register_user, if_pos h]
  · intro h1 h2
    rw [register_user, if_neg h1]
    simp only [h2, Bool.not_false, if_pos]
  · intro h1 h2 h3
    rw [register_user, if_neg h1]
    simp [h2, h3]
  · intro h1 h2 h3 h4
    rw [register_user, if_neg h1]
    simp only [h2, Bool.not_true, if_false, h3, if_pos h4]
    simp [h4]
  · intro h1 h2 h3 h4 h5
    rw [register_user, if_neg h1]
    simp only [h2, Bool.not_true, if_false, h3]
    simp [h4, h5]
  · intro h1 h2 h3 h4 h5
    rw [register_user, if_neg h1]
    simp only [h2, Bool.not_true, if_false, h3]
    simp only [if_neg h4, if_neg h5]
    rw [hash_password, if_neg h4]
    simp

/-- Witness for C3: every branch at concrete inputs over an empty table and a
one-row table. -/
theorem register_error_taxonomy_witness :
    register_user [] "   " "password123" 0 1 = .error "Email cannot be empty" ∧
    register_user [] "no-at-sign" "password123" 0 1 =
      .error "Invalid email format" ∧
    register_user [{ id := 1, email := "a@b.co",
                     password_hash := .digest "password123" 0 }]
      "A@B.co" "password123" 0 2 = .error "Email already registered" ∧
    register_user [] "a@b.co" "short" 0 1 =
      .error "Password must be at least 8 characters" ∧
    register_user [] "a@b.co" "password123" 0 1 =
      .ok ({ id := 1, email := "a@b.co", password_hash := .digest "password123" 0 },
           [{ id := 1, email := "a@b.co", password_hash := .digest "password123" 0 }]) := by
  have h1 := register_error_taxonomy [] "   " "password123" 0 1
  have h2 := register_error_taxonomy [] "no-at-sign" "password123" 0 1
  have h3 := register_error_taxonomy
    [{ id := 1, email := "a@b.co", password_hash := .digest "password123" 0 }]
    "A@B.co" "password123" 0 2
  have h4 := register_error_taxonomy [] "a@b.co" "short" 0 1
  have h5 := register_error_taxonomy [] "a@b.co" "password123" 0 1
  refine ⟨h1.1 (by decide), h2.2.1 (by decide) (by decide),
    h3.2.2.1 (by decide) (by decide) (by decide),
    h4.2.2.2.2.1 (by decide) (by decide) (by decide) (by decide) (by decide),
    h5.2.2.2.2.2.2 (by decide) (by decide) (by decide) (by decide) (by decide)⟩

-- ### C8

theorem find?_append_of_none {α : Type} {p : α → Bool} {l1 : List α}
    (l2 : List α) (h : l1.find? p = none) :
    (l1 ++ l2).find? p = l2.find? p := by
  induction l1 with
  | nil => simp
  | cons a tl ih =>
    rw [List.find?] at h
    cases hpa : p a with
    | true => rw [hpa] at h; cases h
    | false =>
      rw [hpa] at h
      rw [List.cons_append, List.find?, hpa]
      exact ih h

/-- C8: register and authenticate normalize the email identically (trim then
lowercase). Registering `"Test@Example.com"` with `"password123"` on any
table without that normalized email, then authenticating with
`"test@example.com "` (trailing space) and the same password, succeeds and
returns exactly the registered account. -/
theorem email_normalization_agreement (db : List User) (salt nid : Nat)
    (hnew : db.find? (fun u => u.email == "test@example.com") = none) :
    ∃ u db',
      register_user db "Test@Example.com" "password123" salt nid =
        .ok (u, db') ∧
      u.email = "test@example.com" ∧
      authenticate_user db' "test@example.com " "password123" = some u := by
  refine ⟨{ id := nid, email := "test@example.com",
            password_hash := .digest "password123" salt },
    db ++ [{ id := nid, email := "test@example.com",
             password_hash := .digest "password123" salt }], ?_, rfl, ?_⟩
  · rw [register_user, if_neg (by decide)]
    simp only [show pyLower (pyStrip "Test@Example.com") = "test@example.com"
      from by decide]
    rw [if_neg (by decide)]
    rw [hnew]
    simp only [Option.isSome_none, Bool.false_eq_true, if_false]
    rw [if_neg (by decide), if_neg (by decide)]
    rw [hash_password, if_neg (by decide)]
  · rw [authenticate_user, if_neg (by decide)]
    simp only [show pyLower (pyStrip "test@example.com ") = "test@example.com"
      from by decide]
    rw [find?_append_of_none _ hnew]
    simp [List.find?, verify_password, bcrypt_checkpw]

/-- Witness for C8 starting from the empty user table. -/
theorem email_normalization_agreement_witness :
    ∃ u db',
      register_user [] "Test@Example.com" "password123" 0 1 = .ok (u, db') ∧
      u.email = "test@example.com" ∧
      authenticate_user db' "test@example.com " "password123" = some u :=
  email_normalization_agreement [] 0 1 rfl

-- ### C4

/-- C4, evaluated at the failing input. The claim says `update` validates a
given title exactly as `create` does (reject empty/whitespace-only after
trimming, store trimmed). The backend `PUT` pipeline — `TodoUpdate`, which
only checks raw length 1..500, followed by `DatabaseStore.update`, which
validates nothing — accepts the whitespace-only title `" "` on an owned item
and stores it untrimmed, while the create-side validations (`Todo.__init__`
via `mkTodo`, and `TodoValidator.validate_title`, which
`TodoManager.update_todo` would run but the route bypasses) reject the same
title. -/
theorem update_skips_create_validation :
    todoUpdateValid (some " ") none = true ∧
    backend_update sampleDb sampleTodo.id (some " ") none sampleTodo.user_id =
      .ok ({ sampleTodo with title := " " },
           [{ sampleTodo with title := " " }]) ∧
    ({ sampleTodo with title := " " } : Todo).title ≠
      pyStrip ({ sampleTodo with title := " " } : Todo).title ∧
    mkTodo " " "" pendingStatus 1 2 0 =
      .error "Title cannot be empty or whitespace-only" ∧
    validate_title " " = .error "Title cannot be empty" :=
  ⟨rfl, rfl, by decide, rfl, rfl⟩
